import Mathlib

/-!
# cLuaTCPLink: the Lua bridge of a TCP link

A shallow embedding of `src/Bindings/LuaTCPLink.cpp`.

The bridge object is a record of its member variables.  Every method is a
function from the bridge (and its arguments) to an `Outcome`: the returned
value, the bridge afterwards, and the list of calls the method made on its
collaborators (the underlying `cTCPLink`, the callback reference, the owning
`cLuaServerHandle`, the Lua state and the logger), in program order.

What the collaborators answer is not part of this file of the repository; it
is taken as a parameter (`Collaborators`).  A Lua callback receives the bridge
(`this`) and may call any of its script-facing methods while it runs: what a
callback does is the list of those calls, in order, and whether it succeeded.
The calls are run on the bridge before the method that invoked the callback
goes on.
-/

namespace LuaTCPLink

/-- The byte strings of the program (`AString` is `std::string`). -/
abbrev AString := String

/-- An underlying `cTCPLink` object, known by its identity. -/
structure cTCPLink where
  handle : Nat
deriving DecidableEq, Repr

/-- A shared pointer to a link; `none` is `nullptr`. -/
abbrev cTCPLinkPtr := Option cTCPLink

/-- A `cLuaServerHandle` object, known by its identity. -/
structure cLuaServerHandle where
  handle : Nat
deriving DecidableEq, Repr

/-- What `m_Server.lock()` gives: `none` when there is no owning server or it has expired. -/
abbrev cLuaServerHandleWPtr := Option cLuaServerHandle

/-- A certificate object after `Parse(data, size)` has been called on it. -/
structure cX509Cert where
  data : AString
deriving DecidableEq, Repr

/-- A shared pointer to a certificate; `none` is the default-constructed (null) pointer. -/
abbrev cX509CertPtr := Option cX509Cert

/-- A key object after `ParsePrivate(data, size, password)` has been called on it. -/
structure cCryptoKey where
  data : AString
  password : AString
deriving DecidableEq, Repr

/-- A shared pointer to a key; `none` is the default-constructed (null) pointer. -/
abbrev cCryptoKeyPtr := Option cCryptoKey

/-- An argument given to a Lua callback. -/
inductive LuaArg where
  | bridge (ident : Nat)
  | str (value : AString)
  | int (value : Int)
deriving DecidableEq, Repr

/-- One call a script makes on the bridge from inside a callback: the public methods of
the bridge are the whole surface a script may call. -/
inductive ScriptCall where
  | Send (a_Data : AString)
  | GetLocalIP
  | GetLocalPort
  | GetRemoteIP
  | GetRemotePort
  | Shutdown
  | Close
  | StartTLSClient (a_OwnCertData a_OwnPrivKeyData a_OwnPrivKeyPassword : AString)
  | StartTLSServer (a_OwnCertData a_OwnPrivKeyData a_OwnPrivKeyPassword a_StartTLSData : AString)
deriving DecidableEq, Repr

/-- One call made by the bridge on one of its collaborators. -/
inductive Call where
  | LinkSend (link : cTCPLink) (a_Data : AString)
  | LinkGetLocalIP (link : cTCPLink)
  | LinkGetLocalPort (link : cTCPLink)
  | LinkGetRemoteIP (link : cTCPLink)
  | LinkGetRemotePort (link : cTCPLink)
  | LinkShutdown (link : cTCPLink)
  | LinkClose (link : cTCPLink)
  | LinkStartTLSClient (link : cTCPLink) (ownCert : cX509CertPtr) (ownPrivKey : cCryptoKeyPtr)
  | LinkStartTLSServer (link : cTCPLink) (ownCert : cX509Cert) (ownPrivKey : cCryptoKey)
      (a_StartTLSData : AString)
  | CallbacksUnRef
  | ServerRemoveLink (server : cLuaServerHandle) (bridge : Nat)
  | LuaCall (fnName : AString) (args : List LuaArg)
  | LogInfo (msg : AString)
  | LogWarning (msg : AString)
  | LogStackTrace
deriving DecidableEq, Repr

/-- The answers of the collaborators whose code is outside this file. -/
structure Collaborators where
  /-- The result code of `cX509Cert::Parse` on the given bytes. -/
  Parse : AString → Int
  /-- The result code of `cCryptoKey::ParsePrivate` on the given bytes and password. -/
  ParsePrivate : AString → AString → Int
  /-- The result of `cTCPLink::Send`. -/
  linkSend : cTCPLink → AString → Bool
  linkGetLocalIP : cTCPLink → AString
  linkGetLocalPort : cTCPLink → Nat
  linkGetRemoteIP : cTCPLink → AString
  linkGetRemotePort : cTCPLink → Nat
  /-- The string returned by `cTCPLink::StartTLSClient`. -/
  linkStartTLSClient : cTCPLink → cX509CertPtr → cCryptoKeyPtr → AString
  /-- The string returned by `cTCPLink::StartTLSServer`. -/
  linkStartTLSServer : cTCPLink → cX509Cert → cCryptoKey → AString → AString
  /-- What `cLuaState::Call` of the named function of the callback table does: the calls
  the script makes on the bridge while it runs, and whether the call succeeds. -/
  luaCall : AString → List LuaArg → List ScriptCall × Bool

/-- The bridge object: its member variables, and its identity (`this`). -/
structure cLuaTCPLink where
  /-- The identity of the object, what `this` is. -/
  ident : Nat
  /-- The name of the plugin `m_Plugin`, the only part of it the bridge reads. -/
  m_Plugin : AString
  /-- Whether `m_Callbacks.IsValid()`. -/
  m_Callbacks : Bool
  /-- The result of `m_Server.lock()`. -/
  m_Server : cLuaServerHandleWPtr
  /-- The stored link. -/
  m_Link : cTCPLinkPtr
deriving DecidableEq, Repr

/-- What a method returns, the bridge afterwards, and the calls it made, in order. -/
structure Outcome (α : Type) where
  ret : α
  state : cLuaTCPLink
  calls : List Call

/-- The digits `%x` prints for an `int` argument: the argument is read as an
unsigned 32-bit value and written in lowercase hexadecimal. -/
def fmtHex (res : Int) : AString :=
  String.mk (Nat.toDigits 16 (res % 2 ^ 32).toNat)

/-- The text `%s` prints for `c_str()` of a string: its bytes up to the first NUL. -/
def c_str (s : AString) : AString :=
  String.mk (s.data.takeWhile (fun c => c ≠ Char.ofNat 0))

/-- The digits `%d` prints for an `int` argument. -/
def fmtDec (n : Int) : AString :=
  toString n

/-- The warning both constructors give when the callbacks are not valid. -/
def warnInvalid (a_Plugin : AString) (valid : Bool) : List Call :=
  if valid then []
  else [Call.LogWarning
          ("cTCPLink in plugin " ++ c_str a_Plugin ++ ": callbacks could not be retrieved"),
        Call.LogStackTrace]

/-- The constructor `cLuaTCPLink(a_Plugin, a_CallbacksTableStackPos)`; `tableValid` tells whether
a reference to the value at that stack position could be made. -/
def create (ident : Nat) (a_Plugin : AString) (tableValid : Bool) : Outcome Unit :=
  ⟨(), ⟨ident, a_Plugin, tableValid, none, none⟩, warnInvalid a_Plugin tableValid⟩

/-- The constructor `cLuaTCPLink(a_Plugin, a_CallbacksTableRef, a_ServerHandle)`. -/
def createForServer (ident : Nat) (a_Plugin : AString) (a_CallbacksTableRef : Bool)
    (a_ServerHandle : cLuaServerHandleWPtr) : Outcome Unit :=
  ⟨(), ⟨ident, a_Plugin, a_CallbacksTableRef, a_ServerHandle, none⟩,
    warnInvalid a_Plugin a_CallbacksTableRef⟩

/-- The method `cLuaTCPLink::Send`. -/
def Send (env : Collaborators) (self : cLuaTCPLink) (a_Data : AString) : Outcome Bool :=
  match self.m_Link with
  | none => ⟨false, self, []⟩
  | some Link => ⟨env.linkSend Link a_Data, self, [Call.LinkSend Link a_Data]⟩

/-- The method `cLuaTCPLink::GetLocalIP`. -/
def GetLocalIP (env : Collaborators) (self : cLuaTCPLink) : Outcome AString :=
  match self.m_Link with
  | none => ⟨"", self, []⟩
  | some Link => ⟨env.linkGetLocalIP Link, self, [Call.LinkGetLocalIP Link]⟩

/-- The method `cLuaTCPLink::GetLocalPort`. -/
def GetLocalPort (env : Collaborators) (self : cLuaTCPLink) : Outcome Nat :=
  match self.m_Link with
  | none => ⟨0, self, []⟩
  | some Link => ⟨env.linkGetLocalPort Link % 2 ^ 16, self, [Call.LinkGetLocalPort Link]⟩

/-- The method `cLuaTCPLink::GetRemoteIP`. -/
def GetRemoteIP (env : Collaborators) (self : cLuaTCPLink) : Outcome AString :=
  match self.m_Link with
  | none => ⟨"", self, []⟩
  | some Link => ⟨env.linkGetRemoteIP Link, self, [Call.LinkGetRemoteIP Link]⟩

/-- The method `cLuaTCPLink::GetRemotePort`. -/
def GetRemotePort (env : Collaborators) (self : cLuaTCPLink) : Outcome Nat :=
  match self.m_Link with
  | none => ⟨0, self, []⟩
  | some Link => ⟨env.linkGetRemotePort Link % 2 ^ 16, self, [Call.LinkGetRemotePort Link]⟩

/-- The method `cLuaTCPLink::Shutdown`. -/
def Shutdown (self : cLuaTCPLink) : Outcome Unit :=
  match self.m_Link with
  | some Link => ⟨(), self, [Call.LinkShutdown Link]⟩
  | none => ⟨(), self, []⟩

/-- The method `cLuaTCPLink::Terminated`: disable the callbacks if they are valid, tell the
server if it is still alive, close and release the link if there is one. -/
def Terminated (self : cLuaTCPLink) : Outcome Unit :=
  let unref : List Call := if self.m_Callbacks then [Call.CallbacksUnRef] else []
  let callbacks : Bool := if self.m_Callbacks then false else self.m_Callbacks
  let removed : List Call :=
    match self.m_Server with
    | some Server => [Call.ServerRemoveLink Server self.ident]
    | none => []
  let closed : List Call :=
    match self.m_Link with
    | some Link => [Call.LinkClose Link]
    | none => []
  let link : cTCPLinkPtr :=
    match self.m_Link with
    | some _ => none
    | none => self.m_Link
  ⟨(), { self with m_Callbacks := callbacks, m_Link := link }, unref ++ removed ++ closed⟩

/-- The method `cLuaTCPLink::Close`: close the link if there is one, then `Terminated()`. -/
def Close (self : cLuaTCPLink) : Outcome Unit :=
  let closed : List Call :=
    match self.m_Link with
    | some Link => [Call.LinkClose Link]
    | none => []
  let t := Terminated self
  ⟨(), t.state, closed ++ t.calls⟩

/-- The destructor `cLuaTCPLink::~cLuaTCPLink`, the same statements as `Close`. -/
def destroy (self : cLuaTCPLink) : Outcome Unit :=
  let closed : List Call :=
    match self.m_Link with
    | some Link => [Call.LinkClose Link]
    | none => []
  let t := Terminated self
  ⟨(), t.state, closed ++ t.calls⟩

/-- The method `cLuaTCPLink::StartTLSClient`. -/
def StartTLSClient (env : Collaborators) (self : cLuaTCPLink)
    (a_OwnCertData a_OwnPrivKeyData a_OwnPrivKeyPassword : AString) : Outcome AString :=
  match self.m_Link with
  | some link =>
    if a_OwnCertData ≠ "" ∧ env.Parse a_OwnCertData ≠ 0 then
      ⟨"Cannot parse client certificate: -0x" ++ fmtHex (env.Parse a_OwnCertData), self, []⟩
    else
      let ownCert : cX509CertPtr := if a_OwnCertData ≠ "" then some ⟨a_OwnCertData⟩ else none
      if a_OwnPrivKeyData ≠ "" ∧ env.ParsePrivate a_OwnPrivKeyData a_OwnPrivKeyPassword ≠ 0 then
        ⟨"Cannot parse client private key: -0x"
            ++ fmtHex (env.ParsePrivate a_OwnPrivKeyData a_OwnPrivKeyPassword), self, []⟩
      else
        let ownPrivKey : cCryptoKeyPtr :=
          if a_OwnPrivKeyData ≠ "" then some ⟨a_OwnPrivKeyData, a_OwnPrivKeyPassword⟩ else none
        ⟨env.linkStartTLSClient link ownCert ownPrivKey, self,
          [Call.LinkStartTLSClient link ownCert ownPrivKey]⟩
  | none => ⟨"", self, []⟩

/-- The method `cLuaTCPLink::StartTLSServer`. -/
def StartTLSServer (env : Collaborators) (self : cLuaTCPLink)
    (a_OwnCertData a_OwnPrivKeyData a_OwnPrivKeyPassword a_StartTLSData : AString) :
    Outcome AString :=
  match self.m_Link with
  | some link =>
    if env.Parse a_OwnCertData ≠ 0 then
      ⟨"Cannot parse server certificate: -0x" ++ fmtHex (env.Parse a_OwnCertData), self, []⟩
    else if env.ParsePrivate a_OwnPrivKeyData a_OwnPrivKeyPassword ≠ 0 then
      ⟨"Cannot parse server private key: -0x"
          ++ fmtHex (env.ParsePrivate a_OwnPrivKeyData a_OwnPrivKeyPassword), self, []⟩
    else
      ⟨env.linkStartTLSServer link ⟨a_OwnCertData⟩ ⟨a_OwnPrivKeyData, a_OwnPrivKeyPassword⟩
          a_StartTLSData, self,
        [Call.LinkStartTLSServer link ⟨a_OwnCertData⟩ ⟨a_OwnPrivKeyData, a_OwnPrivKeyPassword⟩
          a_StartTLSData]⟩
  | none => ⟨"", self, []⟩

/-- The bridge and the calls made after one call of a script on the bridge. -/
def runScriptCall (env : Collaborators) (self : cLuaTCPLink) :
    ScriptCall → cLuaTCPLink × List Call
  | .Send d => ((Send env self d).state, (Send env self d).calls)
  | .GetLocalIP => ((GetLocalIP env self).state, (GetLocalIP env self).calls)
  | .GetLocalPort => ((GetLocalPort env self).state, (GetLocalPort env self).calls)
  | .GetRemoteIP => ((GetRemoteIP env self).state, (GetRemoteIP env self).calls)
  | .GetRemotePort => ((GetRemotePort env self).state, (GetRemotePort env self).calls)
  | .Shutdown => ((Shutdown self).state, (Shutdown self).calls)
  | .Close => ((Close self).state, (Close self).calls)
  | .StartTLSClient c k p =>
      ((StartTLSClient env self c k p).state, (StartTLSClient env self c k p).calls)
  | .StartTLSServer c k p d =>
      ((StartTLSServer env self c k p d).state, (StartTLSServer env self c k p d).calls)

/-- The bridge and the calls made after the calls of a script on the bridge, in order. -/
def runScript (env : Collaborators) (self : cLuaTCPLink) :
    List ScriptCall → cLuaTCPLink × List Call
  | [] => (self, [])
  | c :: cs =>
    ((runScript env (runScriptCall env self c).1 cs).1,
      (runScriptCall env self c).2 ++ (runScript env (runScriptCall env self c).1 cs).2)

/-- The call of a named callback: the Lua call, what the script does on the bridge while
it runs, and, when the call fails, the log line for it.  Gives the bridge as the callback
left it and the calls made. -/
def callCallback (env : Collaborators) (self : cLuaTCPLink) (fnName : AString)
    (args : List LuaArg) (failMsg : AString) : cLuaTCPLink × List Call :=
  ((runScript env self (env.luaCall fnName args).1).1,
    [Call.LuaCall fnName args] ++ (runScript env self (env.luaCall fnName args).1).2
      ++ (if (env.luaCall fnName args).2 then [] else [Call.LogInfo failMsg]))

/-- The method `cLuaTCPLink::ReceivedCleartextData`. -/
def ReceivedCleartextData (env : Collaborators) (self : cLuaTCPLink) (a_Data : AString) :
    Outcome Unit :=
  if ¬ self.m_Callbacks then ⟨(), self, []⟩
  else
    let called := callCallback env self "OnReceivedData"
      [LuaArg.bridge self.ident, LuaArg.str a_Data]
      ("cTCPLink OnReceivedData callback failed in plugin " ++ c_str self.m_Plugin ++ ".")
    ⟨(), called.1, called.2⟩

/-- The method `cLuaTCPLink::OnConnected`; the link argument is not used by the body. -/
def OnConnected (env : Collaborators) (self : cLuaTCPLink) (_a_Link : cTCPLink) : Outcome Unit :=
  if ¬ self.m_Callbacks then ⟨(), self, []⟩
  else
    let called := callCallback env self "OnConnected" [LuaArg.bridge self.ident]
      ("cTCPLink OnConnected() callback failed in plugin " ++ c_str self.m_Plugin ++ ".")
    ⟨(), called.1, called.2⟩

/-- The method `cLuaTCPLink::OnError`: the callback, then `Terminated()` on the bridge as
the callback left it. -/
def OnError (env : Collaborators) (self : cLuaTCPLink) (a_ErrorCode : Int)
    (a_ErrorMsg : AString) : Outcome Unit :=
  if ¬ self.m_Callbacks then ⟨(), self, []⟩
  else
    let called := callCallback env self "OnError"
      [LuaArg.bridge self.ident, LuaArg.int a_ErrorCode, LuaArg.str a_ErrorMsg]
      ("cTCPLink OnError() callback failed in plugin " ++ c_str self.m_Plugin
        ++ "; the link error is " ++ fmtDec a_ErrorCode ++ " (" ++ c_str a_ErrorMsg ++ ").")
    let t := Terminated called.1
    ⟨(), t.state, called.2 ++ t.calls⟩

/-- The method `cLuaTCPLink::OnLinkCreated`: store the link. -/
def OnLinkCreated (self : cLuaTCPLink) (a_Link : cTCPLinkPtr) : Outcome Unit :=
  ⟨(), { self with m_Link := a_Link }, []⟩

/-- The method `cLuaTCPLink::OnReceivedData`. -/
def OnReceivedData (env : Collaborators) (self : cLuaTCPLink) (a_Data : AString) :
    Outcome Unit :=
  if ¬ self.m_Callbacks then ⟨(), self, []⟩
  else
    let called := callCallback env self "OnReceivedData"
      [LuaArg.bridge self.ident, LuaArg.str a_Data]
      ("cTCPLink OnReceivedData callback failed in plugin " ++ c_str self.m_Plugin ++ ".")
    ⟨(), called.1, called.2⟩

/-- The method `cLuaTCPLink::OnRemoteClosed`: the callback, then `Terminated()` on the
bridge as the callback left it. -/
def OnRemoteClosed (env : Collaborators) (self : cLuaTCPLink) : Outcome Unit :=
  if ¬ self.m_Callbacks then ⟨(), self, []⟩
  else
    let called := callCallback env self "OnRemoteClosed" [LuaArg.bridge self.ident]
      ("cTCPLink OnRemoteClosed() callback failed in plugin " ++ c_str self.m_Plugin ++ ".")
    let t := Terminated called.1
    ⟨(), t.state, called.2 ++ t.calls⟩

/-- One operation on the bridge, with its arguments. -/
inductive Op where
  | Send (a_Data : AString)
  | GetLocalIP
  | GetLocalPort
  | GetRemoteIP
  | GetRemotePort
  | Shutdown
  | Close
  | StartTLSClient (a_OwnCertData a_OwnPrivKeyData a_OwnPrivKeyPassword : AString)
  | StartTLSServer (a_OwnCertData a_OwnPrivKeyData a_OwnPrivKeyPassword a_StartTLSData : AString)
  | Terminated
  | ReceivedCleartextData (a_Data : AString)
  | OnConnected (a_Link : cTCPLink)
  | OnError (a_ErrorCode : Int) (a_ErrorMsg : AString)
  | OnLinkCreated (a_Link : cTCPLinkPtr)
  | OnReceivedData (a_Data : AString)
  | OnRemoteClosed
deriving DecidableEq, Repr

/-- The bridge and the calls made after one operation (the returned value is dropped). -/
def step (env : Collaborators) (self : cLuaTCPLink) : Op → cLuaTCPLink × List Call
  | .Send d => ((Send env self d).state, (Send env self d).calls)
  | .GetLocalIP => ((GetLocalIP env self).state, (GetLocalIP env self).calls)
  | .GetLocalPort => ((GetLocalPort env self).state, (GetLocalPort env self).calls)
  | .GetRemoteIP => ((GetRemoteIP env self).state, (GetRemoteIP env self).calls)
  | .GetRemotePort => ((GetRemotePort env self).state, (GetRemotePort env self).calls)
  | .Shutdown => ((Shutdown self).state, (Shutdown self).calls)
  | .Close => ((Close self).state, (Close self).calls)
  | .StartTLSClient c k p =>
      ((StartTLSClient env self c k p).state, (StartTLSClient env self c k p).calls)
  | .StartTLSServer c k p d =>
      ((StartTLSServer env self c k p d).state, (StartTLSServer env self c k p d).calls)
  | .Terminated => ((Terminated self).state, (Terminated self).calls)
  | .ReceivedCleartextData d =>
      ((ReceivedCleartextData env self d).state, (ReceivedCleartextData env self d).calls)
  | .OnConnected l => ((OnConnected env self l).state, (OnConnected env self l).calls)
  | .OnError c m => ((OnError env self c m).state, (OnError env self c m).calls)
  | .OnLinkCreated l => ((OnLinkCreated self l).state, (OnLinkCreated self l).calls)
  | .OnReceivedData d => ((OnReceivedData env self d).state, (OnReceivedData env self d).calls)
  | .OnRemoteClosed => ((OnRemoteClosed env self).state, (OnRemoteClosed env self).calls)

/-- The bridge and all the calls made after a sequence of operations, in order. -/
def run (env : Collaborators) (self : cLuaTCPLink) : List Op → cLuaTCPLink × List Call
  | [] => (self, [])
  | op :: ops =>
    ((run env (step env self op).1 ops).1, (step env self op).2 ++ (run env (step env self op).1 ops).2)

/-- An environment for examples: every parse succeeds, the link accepts everything,
every callback succeeds and calls nothing on the bridge. -/
def quietEnv : Collaborators where
  Parse := fun _ => 0
  ParsePrivate := fun _ _ => 0
  linkSend := fun _ _ => true
  linkGetLocalIP := fun _ => "127.0.0.1"
  linkGetLocalPort := fun _ => 1234
  linkGetRemoteIP := fun _ => "127.0.0.1"
  linkGetRemotePort := fun _ => 80
  linkStartTLSClient := fun _ _ _ => ""
  linkStartTLSServer := fun _ _ _ _ => ""
  luaCall := fun _ _ => ([], true)

/-- An environment for examples in which the certificate parser answers `certRes`
and the key parser answers `keyRes`. -/
def parseEnv (certRes keyRes : Int) : Collaborators :=
  { quietEnv with Parse := fun _ => certRes, ParsePrivate := fun _ _ => keyRes }

/-- An environment for examples in which every callback calls `Close()` on the bridge
and then succeeds. -/
def closingEnv : Collaborators :=
  { quietEnv with luaCall := fun _ _ => ([ScriptCall.Close], true) }

/-- An environment for examples in which every callback sends a line on the bridge and
then fails. -/
def failingEnv : Collaborators :=
  { quietEnv with luaCall := fun _ _ => ([ScriptCall.Send "bye"], false) }

/-- An active bridge for examples: valid callbacks, link 7, owned by server 3. -/
def sampleBridge : cLuaTCPLink :=
  ⟨1, "Plug", true, some ⟨3⟩, some ⟨7⟩⟩

/-- A bridge for examples made by the server constructor with a callback reference that is
not valid, to which link 7 has then been given by `OnLinkCreated`. -/
def inertBridge : cLuaTCPLink :=
  (OnLinkCreated (createForServer 1 "Plug" false (some ⟨3⟩)).state (some ⟨7⟩)).state

/-- The two terminal sink events, `OnError` and `OnRemoteClosed`. -/
def isTerminalEvent : Op → Bool
  | .OnError _ _ => true
  | .OnRemoteClosed => true
  | _ => false

/-- The five event-forwarding methods that call into the scripting host. -/
def isForwardedEvent : Op → Bool
  | .OnReceivedData _ => true
  | .ReceivedCleartextData _ => true
  | .OnConnected _ => true
  | .OnError _ _ => true
  | .OnRemoteClosed => true
  | _ => false

/-- The calls of the teardown: release of the callback reference, `RemoveLink` on a server,
`Close` on a link. -/
def isTeardownCall : Call → Bool
  | .CallbacksUnRef => true
  | .ServerRemoveLink _ _ => true
  | .LinkClose _ => true
  | _ => false

/-- The calls made on an underlying link. -/
def isLinkCall : Call → Bool
  | .LinkSend _ _ => true
  | .LinkGetLocalIP _ => true
  | .LinkGetLocalPort _ => true
  | .LinkGetRemoteIP _ => true
  | .LinkGetRemotePort _ => true
  | .LinkShutdown _ => true
  | .LinkClose _ => true
  | .LinkStartTLSClient _ _ _ => true
  | .LinkStartTLSServer _ _ _ _ => true
  | _ => false

/-- The two script-facing methods `Close` and `Shutdown`. -/
def isCloseOrShutdown : Op → Bool
  | .Close => true
  | .Shutdown => true
  | _ => false

/-- The call `Terminated()` makes on the owning server: `RemoveLink(this)` when
`m_Server.lock()` is not null. -/
def serverNotice (self : cLuaTCPLink) : List Call :=
  match self.m_Server with
  | some Server => [Call.ServerRemoveLink Server self.ident]
  | none => []

/-- The results, the bridge and the calls made after a sequence of `Send` calls. -/
def sendAll (env : Collaborators) (self : cLuaTCPLink) :
    List AString → List Bool × cLuaTCPLink × List Call
  | [] => ([], self, [])
  | d :: ds =>
    ((Send env self d).ret :: (sendAll env (Send env self d).state ds).1,
      (sendAll env (Send env self d).state ds).2.1,
      (Send env self d).calls ++ (sendAll env (Send env self d).state ds).2.2)

/-- The hexadecimal digits of the magnitude of a result code, what the error text is
said to show after `-0x`. -/
def magnitudeHex (res : Int) : AString :=
  String.mk (Nat.toDigits 16 res.natAbs)

/-! ## Shared lemmas -/

theorem Terminated_state (s : cLuaTCPLink) :
    (Terminated s).state = { s with m_Callbacks := false, m_Link := none } := by
  obtain ⟨i, p, cb, srv, l⟩ := s
  cases cb <;> cases l <;> rfl

theorem Send_state (env : Collaborators) (s : cLuaTCPLink) (d : AString) :
    (Send env s d).state = s := by
  unfold Send; split <;> rfl

theorem GetLocalIP_state (env : Collaborators) (s : cLuaTCPLink) :
    (GetLocalIP env s).state = s := by
  unfold GetLocalIP; split <;> rfl

theorem GetLocalPort_state (env : Collaborators) (s : cLuaTCPLink) :
    (GetLocalPort env s).state = s := by
  unfold GetLocalPort; split <;> rfl

theorem GetRemoteIP_state (env : Collaborators) (s : cLuaTCPLink) :
    (GetRemoteIP env s).state = s := by
  unfold GetRemoteIP; split <;> rfl

theorem GetRemotePort_state (env : Collaborators) (s : cLuaTCPLink) :
    (GetRemotePort env s).state = s := by
  unfold GetRemotePort; split <;> rfl

theorem Shutdown_state (s : cLuaTCPLink) : (Shutdown s).state = s := by
  unfold Shutdown; split <;> rfl

theorem Terminated_link (s : cLuaTCPLink) : (Terminated s).state.m_Link = none := by
  rw [Terminated_state]

theorem Terminated_callbacks (s : cLuaTCPLink) : (Terminated s).state.m_Callbacks = false := by
  rw [Terminated_state]

theorem Close_state (s : cLuaTCPLink) :
    (Close s).state = { s with m_Callbacks := false, m_Link := none } :=
  Terminated_state s

theorem StartTLSClient_state (env : Collaborators) (s : cLuaTCPLink) (c k p : AString) :
    (StartTLSClient env s c k p).state = s := by
  unfold StartTLSClient
  split
  · dsimp only
    split_ifs <;> rfl
  · rfl

theorem StartTLSServer_state (env : Collaborators) (s : cLuaTCPLink) (c k p d : AString) :
    (StartTLSServer env s c k p d).state = s := by
  unfold StartTLSServer
  split
  · split_ifs <;> rfl
  · rfl

theorem Send_quiet (env : Collaborators) (s : cLuaTCPLink) (d : AString) :
    (Send env s d).calls.filter isTeardownCall = [] := by
  unfold Send; split <;> rfl

theorem GetLocalIP_quiet (env : Collaborators) (s : cLuaTCPLink) :
    (GetLocalIP env s).calls.filter isTeardownCall = [] := by
  unfold GetLocalIP; split <;> rfl

theorem GetLocalPort_quiet (env : Collaborators) (s : cLuaTCPLink) :
    (GetLocalPort env s).calls.filter isTeardownCall = [] := by
  unfold GetLocalPort; split <;> rfl

theorem GetRemoteIP_quiet (env : Collaborators) (s : cLuaTCPLink) :
    (GetRemoteIP env s).calls.filter isTeardownCall = [] := by
  unfold GetRemoteIP; split <;> rfl

theorem GetRemotePort_quiet (env : Collaborators) (s : cLuaTCPLink) :
    (GetRemotePort env s).calls.filter isTeardownCall = [] := by
  unfold GetRemotePort; split <;> rfl

theorem Shutdown_quiet (s : cLuaTCPLink) :
    (Shutdown s).calls.filter isTeardownCall = [] := by
  unfold Shutdown; split <;> rfl

theorem StartTLSClient_quiet (env : Collaborators) (s : cLuaTCPLink) (c k p : AString) :
    (StartTLSClient env s c k p).calls.filter isTeardownCall = [] := by
  unfold StartTLSClient
  split
  · dsimp only
    split_ifs <;> rfl
  · rfl

theorem StartTLSServer_quiet (env : Collaborators) (s : cLuaTCPLink) (c k p d : AString) :
    (StartTLSServer env s c k p d).calls.filter isTeardownCall = [] := by
  unfold StartTLSServer
  split
  · split_ifs <;> rfl
  · rfl

theorem count_eq_count_filter (l : List Call) (c : Call) (hc : isTeardownCall c = true) :
    l.count c = (l.filter isTeardownCall).count c := by
  simp only [List.count, List.countP_filter]
  congr 1
  funext x
  by_cases hx : x = c
  · subst hx; simp [hc]
  · simp [hx]

theorem runScriptCall_quiet (env : Collaborators) (s : cLuaTCPLink) (c : ScriptCall)
    (hc : c ≠ ScriptCall.Close) :
    (runScriptCall env s c).1 = s ∧ (runScriptCall env s c).2.filter isTeardownCall = [] := by
  cases c with
  | Send d => exact ⟨Send_state env s d, Send_quiet env s d⟩
  | GetLocalIP => exact ⟨GetLocalIP_state env s, GetLocalIP_quiet env s⟩
  | GetLocalPort => exact ⟨GetLocalPort_state env s, GetLocalPort_quiet env s⟩
  | GetRemoteIP => exact ⟨GetRemoteIP_state env s, GetRemoteIP_quiet env s⟩
  | GetRemotePort => exact ⟨GetRemotePort_state env s, GetRemotePort_quiet env s⟩
  | Shutdown => exact ⟨Shutdown_state s, Shutdown_quiet s⟩
  | Close => exact absurd rfl hc
  | StartTLSClient c k p => exact ⟨StartTLSClient_state env s c k p, StartTLSClient_quiet env s c k p⟩
  | StartTLSServer c k p d =>
    exact ⟨StartTLSServer_state env s c k p d, StartTLSServer_quiet env s c k p d⟩

theorem runScript_quiet (env : Collaborators) (cs : List ScriptCall) :
    ∀ s : cLuaTCPLink, ScriptCall.Close ∉ cs →
      (runScript env s cs).1 = s ∧ (runScript env s cs).2.filter isTeardownCall = [] := by
  induction cs with
  | nil => intro s _; exact ⟨rfl, rfl⟩
  | cons c rest ih =>
    intro s hno
    have hc : c ≠ ScriptCall.Close := fun h => hno (h ▸ List.mem_cons_self _ _)
    have hrest : ScriptCall.Close ∉ rest := fun h => hno (List.mem_cons_of_mem _ h)
    obtain ⟨h1, h2⟩ := runScriptCall_quiet env s c hc
    obtain ⟨h3, h4⟩ := ih s hrest
    simp only [runScript, h1, h3, List.filter_append, h2, h4, List.append_nil, and_self]

theorem runScript_state (env : Collaborators) (cs : List ScriptCall) :
    ∀ s : cLuaTCPLink, (runScript env s cs).1 = s ∨
      (runScript env s cs).1 = { s with m_Callbacks := false, m_Link := none } := by
  induction cs with
  | nil => intro s; exact Or.inl rfl
  | cons c rest ih =>
    intro s
    by_cases hc : c = ScriptCall.Close
    · subst hc
      have h1 : (runScriptCall env s ScriptCall.Close).1
          = { s with m_Callbacks := false, m_Link := none } := Close_state s
      simp only [runScript, h1]
      rcases ih { s with m_Callbacks := false, m_Link := none } with h | h
      · exact Or.inr h
      · exact Or.inr h
    · have h1 := (runScriptCall_quiet env s c hc).1
      simp only [runScript, h1]
      exact ih s

theorem runScript_server (env : Collaborators) (cs : List ScriptCall) (s : cLuaTCPLink) :
    (runScript env s cs).1.m_Server = s.m_Server ∧ (runScript env s cs).1.ident = s.ident := by
  rcases runScript_state env cs s with h | h <;> rw [h] <;> exact ⟨rfl, rfl⟩

theorem runScript_teardown (env : Collaborators) (link : cTCPLink) (cs : List ScriptCall) :
    ∀ s : cLuaTCPLink, s.m_Callbacks = true → s.m_Link = some link →
      (runScript env s cs).1 = s ∨
      ((runScript env s cs).1 = { s with m_Callbacks := false, m_Link := none } ∧
        Call.LinkClose link ∈ (runScript env s cs).2 ∧
        Call.CallbacksUnRef ∈ (runScript env s cs).2) := by
  induction cs with
  | nil => intro s _ _; exact Or.inl rfl
  | cons c rest ih =>
    intro s hcb hl
    by_cases hc : c = ScriptCall.Close
    · subst hc
      right
      have h1 : (runScriptCall env s ScriptCall.Close).1
          = { s with m_Callbacks := false, m_Link := none } := Close_state s
      have h2 : Call.LinkClose link ∈ (runScriptCall env s ScriptCall.Close).2 := by
        simp [runScriptCall, Close, hl]
      have h3 : Call.CallbacksUnRef ∈ (runScriptCall env s ScriptCall.Close).2 := by
        simp [runScriptCall, Close, Terminated, hcb]
      refine ⟨?_, List.mem_append_left _ h2, List.mem_append_left _ h3⟩
      simp only [runScript, h1]
      rcases runScript_state env rest { s with m_Callbacks := false, m_Link := none } with h | h
      · exact h
      · exact h
    · have h1 := (runScriptCall_quiet env s c hc).1
      rcases ih s hcb hl with h | ⟨h, h2, h3⟩
      · left
        simp only [runScript, h1, h]
      · right
        simp only [runScript, h1]
        exact ⟨h, List.mem_append_right _ h2, List.mem_append_right _ h3⟩

theorem Close_unref (s : cLuaTCPLink) :
    (Close s).calls.count Call.CallbacksUnRef = if s.m_Callbacks then 1 else 0 := by
  obtain ⟨i, p, cb, srv, l⟩ := s
  cases cb <;> cases srv <;> cases l <;> simp [Close, Terminated]

theorem Terminated_unref (s : cLuaTCPLink) :
    (Terminated s).calls.count Call.CallbacksUnRef = if s.m_Callbacks then 1 else 0 := by
  obtain ⟨i, p, cb, srv, l⟩ := s
  cases cb <;> cases srv <;> cases l <;> simp [Terminated]

theorem runScript_unref (env : Collaborators) (cs : List ScriptCall) :
    ∀ s : cLuaTCPLink,
      (runScript env s cs).2.count Call.CallbacksUnRef
          + (if (runScript env s cs).1.m_Callbacks then 1 else 0)
        = if s.m_Callbacks then 1 else 0 := by
  induction cs with
  | nil => intro s; simp [runScript]
  | cons c rest ih =>
    intro s
    by_cases hc : c = ScriptCall.Close
    · subst hc
      have h1 : (runScriptCall env s ScriptCall.Close).1
          = { s with m_Callbacks := false, m_Link := none } := Close_state s
      have h2 : (runScriptCall env s ScriptCall.Close).2.count Call.CallbacksUnRef
          = if s.m_Callbacks then 1 else 0 := Close_unref s
      have h3 := ih { s with m_Callbacks := false, m_Link := none }
      simp only [runScript, h1, List.count_append, h2]
      simp only [Bool.false_eq_true, if_false] at h3
      omega
    · obtain ⟨h1, h2⟩ := runScriptCall_quiet env s c hc
      have h3 : (runScriptCall env s c).2.count Call.CallbacksUnRef = 0 := by
        rw [count_eq_count_filter _ Call.CallbacksUnRef rfl, h2]; rfl
      have h4 := ih s
      simp only [runScript, h1, List.count_append, h3]
      omega

theorem Terminated_all_teardown (s : cLuaTCPLink) :
    (Terminated s).calls.filter isTeardownCall = (Terminated s).calls := by
  obtain ⟨i, p, cb, srv, l⟩ := s
  cases cb <;> cases srv <;> cases l <;> rfl

theorem Terminated_notifies (s : cLuaTCPLink) (server : cLuaServerHandle)
    (hs : s.m_Server = some server) :
    Call.ServerRemoveLink server s.ident ∈ (Terminated s).calls := by
  simp [Terminated, hs]

theorem Terminated_closes (s : cLuaTCPLink) (link : cTCPLink) (hl : s.m_Link = some link) :
    Call.LinkClose link ∈ (Terminated s).calls := by
  simp [Terminated, hl]

theorem Terminated_releases (s : cLuaTCPLink) (hcb : s.m_Callbacks = true) :
    Call.CallbacksUnRef ∈ (Terminated s).calls := by
  simp [Terminated, hcb]

theorem OnError_shape (env : Collaborators) (s : cLuaTCPLink) (c : Int) (m : AString)
    (hcb : s.m_Callbacks = true) :
    ∃ f a msg, OnError env s c m =
      ⟨(), (Terminated (callCallback env s f a msg).1).state,
        (callCallback env s f a msg).2 ++ (Terminated (callCallback env s f a msg).1).calls⟩ :=
  ⟨_, _, _, by unfold OnError; rw [if_neg (not_not.mpr hcb)]⟩

theorem OnRemoteClosed_shape (env : Collaborators) (s : cLuaTCPLink)
    (hcb : s.m_Callbacks = true) :
    ∃ f a msg, OnRemoteClosed env s =
      ⟨(), (Terminated (callCallback env s f a msg).1).state,
        (callCallback env s f a msg).2 ++ (Terminated (callCallback env s f a msg).1).calls⟩ :=
  ⟨_, _, _, by unfold OnRemoteClosed; rw [if_neg (not_not.mpr hcb)]⟩

theorem callback_then_Terminated (env : Collaborators) (s : cLuaTCPLink) (link : cTCPLink)
    (f : AString) (a : List LuaArg) (msg : AString)
    (hcb : s.m_Callbacks = true) (hl : s.m_Link = some link) :
    Call.LinkClose link
      ∈ (callCallback env s f a msg).2 ++ (Terminated (callCallback env s f a msg).1).calls ∧
    Call.CallbacksUnRef
      ∈ (callCallback env s f a msg).2 ++ (Terminated (callCallback env s f a msg).1).calls ∧
    (∀ server, s.m_Server = some server →
      Call.ServerRemoveLink server s.ident
        ∈ (callCallback env s f a msg).2
            ++ (Terminated (callCallback env s f a msg).1).calls) ∧
    ((callCallback env s f a msg).2
        ++ (Terminated (callCallback env s f a msg).1).calls).count Call.CallbacksUnRef = 1 ∧
    (ScriptCall.Close ∉ (env.luaCall f a).1 →
      ((callCallback env s f a msg).2
          ++ (Terminated (callCallback env s f a msg).1).calls).filter isTeardownCall
        = (Terminated s).calls) := by
  have h1 : (callCallback env s f a msg).1 = (runScript env s (env.luaCall f a).1).1 := rfl
  have h2 : (callCallback env s f a msg).2 =
      [Call.LuaCall f a] ++ (runScript env s (env.luaCall f a).1).2
        ++ (if (env.luaCall f a).2 then [] else [Call.LogInfo msg]) := rfl
  have hlog : (if (env.luaCall f a).2 then ([] : List Call) else [Call.LogInfo msg]).filter
      isTeardownCall = [] := by
    split <;> rfl
  refine ⟨?_, ?_, ?_, ?_, ?_⟩
  · rcases runScript_teardown env link (env.luaCall f a).1 s hcb hl with h | ⟨_, h, _⟩
    · rw [h1, h]
      exact List.mem_append_right _ (Terminated_closes s link hl)
    · rw [h2]
      exact List.mem_append_left _ (List.mem_append_left _ (List.mem_append_right _ h))
  · rcases runScript_teardown env link (env.luaCall f a).1 s hcb hl with h | ⟨_, _, h⟩
    · rw [h1, h]
      exact List.mem_append_right _ (Terminated_releases s hcb)
    · rw [h2]
      exact List.mem_append_left _ (List.mem_append_left _ (List.mem_append_right _ h))
  · intro server hs
    have hsrv := runScript_server env (env.luaCall f a).1 s
    have hmem := Terminated_notifies (callCallback env s f a msg).1 server
      (by rw [h1, hsrv.1]; exact hs)
    rw [h1, hsrv.2] at hmem
    rw [h1]
    exact List.mem_append_right _ hmem
  · have hu := runScript_unref env (env.luaCall f a).1 s
    have hlog0 : (if (env.luaCall f a).2 then ([] : List Call)
        else [Call.LogInfo msg]).count Call.CallbacksUnRef = 0 := by
      rw [count_eq_count_filter _ Call.CallbacksUnRef rfl, hlog]; rfl
    have hlua : [Call.LuaCall f a].count Call.CallbacksUnRef = 0 := by
      rw [count_eq_count_filter _ Call.CallbacksUnRef rfl]; rfl
    rw [h2, h1, List.count_append, List.count_append, List.count_append, hlog0, hlua,
      Terminated_unref]
    rw [hcb] at hu
    simp only [if_true] at hu
    omega
  · intro hno
    obtain ⟨hst, hq⟩ := runScript_quiet env (env.luaCall f a).1 s hno
    rw [h2, h1, hst, List.filter_append, List.filter_append, List.filter_append, hq, hlog,
      Terminated_all_teardown]
    rfl

theorem Terminated_after_script (env : Collaborators) (cs : List ScriptCall)
    (s : cLuaTCPLink) :
    (Terminated (runScript env s cs).1).state
      = { s with m_Callbacks := false, m_Link := none } := by
  rw [Terminated_state]
  rcases runScript_state env cs s with h | h <;> rw [h]

theorem step_state (env : Collaborators) (s : cLuaTCPLink) (op : Op) :
    (step env s op).1 = s ∨
    (step env s op).1 = { s with m_Callbacks := false, m_Link := none } ∨
    ∃ l, op = Op.OnLinkCreated l ∧ (step env s op).1 = { s with m_Link := l } := by
  cases op with
  | Send d => exact Or.inl (Send_state env s d)
  | GetLocalIP => exact Or.inl (GetLocalIP_state env s)
  | GetLocalPort => exact Or.inl (GetLocalPort_state env s)
  | GetRemoteIP => exact Or.inl (GetRemoteIP_state env s)
  | GetRemotePort => exact Or.inl (GetRemotePort_state env s)
  | Shutdown => exact Or.inl (Shutdown_state s)
  | Close => exact Or.inr (Or.inl (Close_state s))
  | StartTLSClient c k p => exact Or.inl (StartTLSClient_state env s c k p)
  | StartTLSServer c k p d => exact Or.inl (StartTLSServer_state env s c k p d)
  | Terminated => exact Or.inr (Or.inl (Terminated_state s))
  | ReceivedCleartextData d =>
    simp only [step, ReceivedCleartextData]
    split
    · exact Or.inl rfl
    · rcases runScript_state env _ s with h | h
      · exact Or.inl h
      · exact Or.inr (Or.inl h)
  | OnConnected l =>
    simp only [step, OnConnected]
    split
    · exact Or.inl rfl
    · rcases runScript_state env _ s with h | h
      · exact Or.inl h
      · exact Or.inr (Or.inl h)
  | OnError c m =>
    simp only [step, OnError]
    split
    · exact Or.inl rfl
    · exact Or.inr (Or.inl (Terminated_after_script env _ s))
  | OnLinkCreated l => exact Or.inr (Or.inr ⟨l, rfl, rfl⟩)
  | OnReceivedData d =>
    simp only [step, OnReceivedData]
    split
    · exact Or.inl rfl
    · rcases runScript_state env _ s with h | h
      · exact Or.inl h
      · exact Or.inr (Or.inl h)
  | OnRemoteClosed =>
    simp only [step, OnRemoteClosed]
    split
    · exact Or.inl rfl
    · exact Or.inr (Or.inl (Terminated_after_script env _ s))

theorem step_keeps_released (env : Collaborators) (s : cLuaTCPLink) (op : Op)
    (hcb : s.m_Callbacks = false) : (step env s op).1.m_Callbacks = false := by
  rcases step_state env s op with h | h | ⟨l, _, h⟩ <;> rw [h]
  · exact hcb
  · exact hcb

theorem run_keeps_released (env : Collaborators) (ops : List Op) :
    ∀ s : cLuaTCPLink, s.m_Callbacks = false → (run env s ops).1.m_Callbacks = false := by
  induction ops with
  | nil => intro s h; simpa [run] using h
  | cons op rest ih =>
    intro s h
    simp only [run]
    exact ih _ (step_keeps_released env s op h)

theorem released_not_valid (s : cLuaTCPLink) (hcb : s.m_Callbacks = false) :
    ¬ s.m_Callbacks = true := by
  rw [hcb]; exact Bool.false_ne_true

theorem forwarded_event_dropped (env : Collaborators) (s : cLuaTCPLink) (op : Op)
    (hcb : s.m_Callbacks = false) (hev : isForwardedEvent op = true) :
    step env s op = (s, []) := by
  have hn := released_not_valid s hcb
  cases op with
  | ReceivedCleartextData d => simp only [step, ReceivedCleartextData, if_pos hn]
  | OnConnected l => simp only [step, OnConnected, if_pos hn]
  | OnError c m => simp only [step, OnError, if_pos hn]
  | OnReceivedData d => simp only [step, OnReceivedData, if_pos hn]
  | OnRemoteClosed => simp only [step, OnRemoteClosed, if_pos hn]
  | _ => cases hev

theorem terminal_events_dropped (env : Collaborators) (ops : List Op) :
    ∀ s : cLuaTCPLink, s.m_Callbacks = false → (∀ op ∈ ops, isTerminalEvent op = true) →
      run env s ops = (s, []) := by
  induction ops with
  | nil => intro s _ _; rfl
  | cons op rest ih =>
    intro s hcb hall
    have hop : isForwardedEvent op = true := by
      have h := hall op (List.mem_cons_self _ _)
      cases op with
      | OnError c m => rfl
      | OnRemoteClosed => rfl
      | _ => cases h
    have hstep := forwarded_event_dropped env s op hcb hop
    have hrest := ih s hcb (fun o ho => hall o (List.mem_cons_of_mem _ ho))
    simp [run, hstep, hrest]

theorem append_ne_empty (a b : String) (ha : a ≠ "") : a ++ b ≠ "" := by
  intro h
  apply ha
  have hd := congrArg String.data h
  rw [String.data_append] at hd
  have hnil : a.data = [] := (List.append_eq_nil.mp hd).1
  exact String.ext hnil

theorem fmtHex_negative (res : Int) (hlo : -2 ^ 31 ≤ res) (hneg : res < 0) :
    fmtHex res = String.mk (Nat.toDigits 16 (2 ^ 32 - res.natAbs)) := by
  unfold fmtHex
  have h : (res % 2 ^ 32).toNat = 2 ^ 32 - res.natAbs := by omega
  rw [h]

/-! ## The claims -/

/-- C1, as stated, fails: on a bridge built with a callback reference that is not valid
and holding link 7 under live server 3, `OnError` and `OnRemoteClosed` return at the validity
check: the link stays stored, it is not closed, and the server is not told `RemoveLink`. -/
theorem inert_bridge_skips_teardown :
    inertBridge.m_Link = some ⟨7⟩ ∧ inertBridge.m_Server = some ⟨3⟩ ∧
    (OnError quietEnv inertBridge 104 "reset").state.m_Link = some ⟨7⟩ ∧
    (OnError quietEnv inertBridge 104 "reset").calls = [] ∧
    (OnRemoteClosed quietEnv inertBridge).state.m_Link = some ⟨7⟩ ∧
    (OnRemoteClosed quietEnv inertBridge).calls = [] := by
  decide

/-- C1, amended: for every bridge that holds a stored link and whose callback reference is
valid, and whatever the callback does (it may fail, and it may call `Close()` or any other
method of the bridge while it runs), `OnError(code, msg)` and `OnRemoteClosed()` are each
followed by the teardown: afterwards `m_Link` is empty, the callback reference is not valid
(it has been released), the stored link has been told `Close`, and a live owning server has
been told `RemoveLink` with this bridge. -/
theorem terminal_event_tears_down (env : Collaborators) (self : cLuaTCPLink) (link : cTCPLink)
    (a_ErrorCode : Int) (a_ErrorMsg : AString)
    (hcb : self.m_Callbacks = true) (hl : self.m_Link = some link) :
    ((OnError env self a_ErrorCode a_ErrorMsg).state.m_Link = none ∧
      (OnError env self a_ErrorCode a_ErrorMsg).state.m_Callbacks = false ∧
      Call.LinkClose link ∈ (OnError env self a_ErrorCode a_ErrorMsg).calls ∧
      Call.CallbacksUnRef ∈ (OnError env self a_ErrorCode a_ErrorMsg).calls ∧
      (∀ server, self.m_Server = some server →
        Call.ServerRemoveLink server self.ident
          ∈ (OnError env self a_ErrorCode a_ErrorMsg).calls)) ∧
    ((OnRemoteClosed env self).state.m_Link = none ∧
      (OnRemoteClosed env self).state.m_Callbacks = false ∧
      Call.LinkClose link ∈ (OnRemoteClosed env self).calls ∧
      Call.CallbacksUnRef ∈ (OnRemoteClosed env self).calls ∧
      (∀ server, self.m_Server = some server →
        Call.ServerRemoveLink server self.ident ∈ (OnRemoteClosed env self).calls)) := by
  constructor
  · obtain ⟨f, a, msg, hE⟩ := OnError_shape env self a_ErrorCode a_ErrorMsg hcb
    obtain ⟨h1, h2, h3, _, _⟩ := callback_then_Terminated env self link f a msg hcb hl
    rw [hE]
    exact ⟨Terminated_link _, Terminated_callbacks _, h1, h2, h3⟩
  · obtain ⟨f, a, msg, hR⟩ := OnRemoteClosed_shape env self hcb
    obtain ⟨h1, h2, h3, _, _⟩ := callback_then_Terminated env self link f a msg hcb hl
    rw [hR]
    exact ⟨Terminated_link _, Terminated_callbacks _, h1, h2, h3⟩

/-- Witness for C1 (amended) on the sample bridge, with callbacks that call `Close()`
themselves: link 7 is closed and released, server 3 is told `RemoveLink` with bridge 1. -/
theorem terminal_event_tears_down_witness :
    ((OnError closingEnv sampleBridge 104 "reset").state.m_Link = none ∧
      (OnError closingEnv sampleBridge 104 "reset").state.m_Callbacks = false ∧
      Call.LinkClose ⟨7⟩ ∈ (OnError closingEnv sampleBridge 104 "reset").calls ∧
      Call.ServerRemoveLink ⟨3⟩ 1 ∈ (OnError closingEnv sampleBridge 104 "reset").calls) ∧
    ((OnRemoteClosed closingEnv sampleBridge).state.m_Link = none ∧
      (OnRemoteClosed closingEnv sampleBridge).state.m_Callbacks = false ∧
      Call.LinkClose ⟨7⟩ ∈ (OnRemoteClosed closingEnv sampleBridge).calls ∧
      Call.ServerRemoveLink ⟨3⟩ 1 ∈ (OnRemoteClosed closingEnv sampleBridge).calls) :=
  have h := terminal_event_tears_down closingEnv sampleBridge ⟨7⟩ 104 "reset" rfl rfl
  ⟨⟨h.1.1, h.1.2.1, h.1.2.2.1, h.1.2.2.2.2 ⟨3⟩ rfl⟩,
    ⟨h.2.1, h.2.2.1, h.2.2.2.1, h.2.2.2.2.2 ⟨3⟩ rfl⟩⟩

/-- C2, as stated, fails: on the sample bridge (valid callbacks, link 7, live server 3) a
single `OnError` whose callback calls `Close()` on the bridge has `RemoveLink` called twice
and the link's `Close` called twice: `Close()` runs the teardown inside the callback, and
`OnError` then runs `Terminated()` again. -/
theorem closing_callback_tears_down_twice :
    sampleBridge.m_Callbacks = true ∧ sampleBridge.m_Link = some ⟨7⟩ ∧
    sampleBridge.m_Server = some ⟨3⟩ ∧
    (closingEnv.luaCall "OnError"
      [LuaArg.bridge 1, LuaArg.int 104, LuaArg.str "reset"]).1 = [ScriptCall.Close] ∧
    (run closingEnv sampleBridge [.OnError 104 "reset"]).2.filter isTeardownCall =
      [Call.LinkClose ⟨7⟩, Call.CallbacksUnRef, Call.ServerRemoveLink ⟨3⟩ 1,
        Call.LinkClose ⟨7⟩, Call.ServerRemoveLink ⟨3⟩ 1] ∧
    (run closingEnv sampleBridge [.OnError 104 "reset"]).2.count
      (Call.ServerRemoveLink ⟨3⟩ 1) = 2 ∧
    (run closingEnv sampleBridge [.OnError 104 "reset"]).2.count (Call.LinkClose ⟨7⟩) = 2 := by
  decide

/-- C2, amended: on a bridge with a valid callback reference, a stored link and a live owning
server, over any non-empty sequence of `OnError` and `OnRemoteClosed` events, whatever the
callbacks do and whether they succeed or fail, the callback reference is released exactly
once; and when no callback calls `Close()` on the bridge, the teardown runs exactly once: the
calls of the whole sequence contain exactly one release of the callback reference, exactly
one `RemoveLink` (on that server, with this bridge) and exactly one link `Close` (on the
stored link), in this order. -/
theorem terminal_events_tear_down_once (env : Collaborators) (self : cLuaTCPLink)
    (link : cTCPLink) (server : cLuaServerHandle) (ops : List Op)
    (hcb : self.m_Callbacks = true) (hl : self.m_Link = some link)
    (hs : self.m_Server = some server) (hne : ops ≠ [])
    (hev : ∀ op ∈ ops, isTerminalEvent op = true) :
    (run env self ops).2.count Call.CallbacksUnRef = 1 ∧
    ((∀ f a, ScriptCall.Close ∉ (env.luaCall f a).1) →
      (run env self ops).2.count (Call.ServerRemoveLink server self.ident) = 1 ∧
      (run env self ops).2.count (Call.LinkClose link) = 1 ∧
      (run env self ops).2.filter isTeardownCall =
        [Call.CallbacksUnRef, Call.ServerRemoveLink server self.ident, Call.LinkClose link]) := by
  have hT : (Terminated self).calls =
      [Call.CallbacksUnRef, Call.ServerRemoveLink server self.ident, Call.LinkClose link] := by
    simp [Terminated, hcb, hl, hs]
  have hshape : ∃ f a msg, (run env self ops).2 =
      (callCallback env self f a msg).2 ++ (Terminated (callCallback env self f a msg).1).calls := by
    cases ops with
    | nil => exact absurd rfl hne
    | cons op rest =>
      have hrest : ∀ o ∈ rest, isTerminalEvent o = true :=
        fun o ho => hev o (List.mem_cons_of_mem _ ho)
      have hop := hev op (List.mem_cons_self _ _)
      cases op with
      | OnError c m =>
        obtain ⟨f, a, msg, hE⟩ := OnError_shape env self c m hcb
        have hdrop := terminal_events_dropped env rest (OnError env self c m).state
          (by rw [hE]; exact Terminated_callbacks _) hrest
        refine ⟨f, a, msg, ?_⟩
        simp only [run, step, hdrop, List.append_nil]
        rw [hE]
      | OnRemoteClosed =>
        obtain ⟨f, a, msg, hR⟩ := OnRemoteClosed_shape env self hcb
        have hdrop := terminal_events_dropped env rest (OnRemoteClosed env self).state
          (by rw [hR]; exact Terminated_callbacks _) hrest
        refine ⟨f, a, msg, ?_⟩
        simp only [run, step, hdrop, List.append_nil]
        rw [hR]
      | _ => cases hop
  obtain ⟨f, a, msg, hrun⟩ := hshape
  obtain ⟨_, _, _, hunref, hquiet⟩ := callback_then_Terminated env self link f a msg hcb hl
  rw [hrun]
  refine ⟨hunref, ?_⟩
  intro hno
  have key := hquiet (hno f a)
  rw [hT] at key
  refine ⟨?_, ?_, key⟩
  · rw [count_eq_count_filter _ (Call.ServerRemoveLink server self.ident) rfl, key]; simp
  · rw [count_eq_count_filter _ (Call.LinkClose link) rfl, key]; simp

/-- Witness for C2 (amended): an `OnError` whose callback sends a line and fails, then
`OnRemoteClosed`, then `OnError`. -/
theorem terminal_events_tear_down_once_witness :
    (run failingEnv sampleBridge
      [.OnError 104 "reset", .OnRemoteClosed, .OnError 32 "pipe"]).2.count Call.CallbacksUnRef = 1 ∧
    (run failingEnv sampleBridge
      [.OnError 104 "reset", .OnRemoteClosed, .OnError 32 "pipe"]).2.count
        (Call.ServerRemoveLink ⟨3⟩ sampleBridge.ident) = 1 ∧
    (run failingEnv sampleBridge
      [.OnError 104 "reset", .OnRemoteClosed, .OnError 32 "pipe"]).2.count (Call.LinkClose ⟨7⟩) = 1 ∧
    (run failingEnv sampleBridge
      [.OnError 104 "reset", .OnRemoteClosed, .OnError 32 "pipe"]).2.filter isTeardownCall =
      [Call.CallbacksUnRef, Call.ServerRemoveLink ⟨3⟩ sampleBridge.ident, Call.LinkClose ⟨7⟩] :=
  have h := terminal_events_tear_down_once failingEnv sampleBridge ⟨7⟩ ⟨3⟩
    [.OnError 104 "reset", .OnRemoteClosed, .OnError 32 "pipe"] rfl rfl rfl (by decide)
    (by decide)
  ⟨h.1, h.2 (fun _ _ => by simp [failingEnv, quietEnv])⟩

/-- C3, as stated, fails: on the sample bridge (link 7, live server 3) a second `Close()`
calls `RemoveLink` on the server again, and the first `Close()` alone calls `Close` on the
link twice (once itself, once inside `Terminated()`). -/
theorem second_Close_notifies_server_again :
    (Close (Close sampleBridge).state).calls = [Call.ServerRemoveLink ⟨3⟩ 1] ∧
    (run quietEnv sampleBridge [.Close, .Close]).2.count (Call.ServerRemoveLink ⟨3⟩ 1) = 2 ∧
    (Close sampleBridge).calls.count (Call.LinkClose ⟨7⟩) = 2 := by
  decide

/-- C3, amended: once `Close()` has been called, every further sequence of `Close()` and
`Shutdown()` calls leaves the bridge unchanged, makes no call on the underlying link and
does not release the callback reference; a further `Shutdown()` makes no call at all, and a
further `Close()` makes exactly the call `RemoveLink(this)` on the owning server when
`m_Server.lock()` still gives one, and no call otherwise. -/
theorem further_Close_Shutdown_after_Close (env : Collaborators) (self : cLuaTCPLink)
    (more : List Op) (hmore : ∀ op ∈ more, isCloseOrShutdown op = true) :
    run env (Close self).state more =
      ((Close self).state,
        more.flatMap (fun op => if op = Op.Close then serverNotice self else [])) ∧
    (∀ c ∈ (run env (Close self).state more).2,
      isLinkCall c = false ∧ c ≠ Call.CallbacksUnRef) ∧
    (self.m_Server = none → (run env (Close self).state more).2 = []) := by
  have hrun : run env (Close self).state more =
      ((Close self).state,
        more.flatMap (fun op => if op = Op.Close then serverNotice self else [])) := by
    induction more with
    | nil => rfl
    | cons op rest ih =>
      have hrest := ih (fun o ho => hmore o (List.mem_cons_of_mem _ ho))
      have hop := hmore op (List.mem_cons_self _ _)
      cases op with
      | Close =>
        have hstep : step env (Close self).state Op.Close =
            ((Close self).state, serverNotice self) := by
          rw [Close_state]
          simp only [step, Close, Terminated, serverNotice]
          cases self.m_Server <;> rfl
        simp only [run, hstep, hrest, List.flatMap_cons, if_true]
      | Shutdown =>
        have hstep : step env (Close self).state Op.Shutdown = ((Close self).state, []) := by
          rw [Close_state]
          rfl
        simp only [run, hstep, hrest, List.flatMap_cons, List.nil_append]
        simp
      | _ => cases hop
  refine ⟨hrun, ?_, ?_⟩
  · intro c hc
    rw [hrun] at hc
    simp only [List.mem_flatMap] at hc
    obtain ⟨op, _, hin⟩ := hc
    split_ifs at hin
    · unfold serverNotice at hin
      cases hsrv : self.m_Server with
      | none => rw [hsrv] at hin; cases hin
      | some server =>
        rw [hsrv] at hin
        simp only [List.mem_singleton] at hin
        subst hin
        exact ⟨rfl, by intro h; cases h⟩
    · cases hin
  · intro hnone
    rw [hrun]
    simp [serverNotice, hnone]

/-- Witness for C3 (amended): `Close`, then `Shutdown`, `Close`, `Close` on the sample bridge. -/
theorem further_Close_Shutdown_after_Close_witness :
    run quietEnv (Close sampleBridge).state [.Shutdown, .Close, .Close] =
      ((Close sampleBridge).state,
        [Op.Shutdown, Op.Close, Op.Close].flatMap
          (fun op => if op = Op.Close then serverNotice sampleBridge else [])) :=
  (further_Close_Shutdown_after_Close quietEnv sampleBridge [.Shutdown, .Close, .Close]
    (by decide)).1

/-- C4: after `Terminated()` has run on a bridge, and whatever operations follow it, each
of `OnReceivedData`, `ReceivedCleartextData`, `OnConnected`, `OnError` and `OnRemoteClosed`
makes no call at all (no Lua call, no log line, nothing on the link or the server) and
leaves the bridge unchanged.  The same holds for a bridge that either constructor built with
callbacks that are not valid. -/
theorem events_after_teardown_dropped (env : Collaborators) (self : cLuaTCPLink)
    (ops : List Op) (ev : Op) (hev : isForwardedEvent ev = true) :
    step env (run env (Terminated self).state ops).1 ev =
      ((run env (Terminated self).state ops).1, []) ∧
    (∀ ident a_Plugin,
      step env (run env (create ident a_Plugin false).state ops).1 ev =
        ((run env (create ident a_Plugin false).state ops).1, [])) ∧
    (∀ ident a_Plugin a_ServerHandle,
      step env (run env (createForServer ident a_Plugin false a_ServerHandle).state ops).1 ev =
        ((run env (createForServer ident a_Plugin false a_ServerHandle).state ops).1, [])) :=
  ⟨forwarded_event_dropped env _ ev
      (run_keeps_released env ops _ (Terminated_callbacks self)) hev,
    fun _ _ => forwarded_event_dropped env _ ev (run_keeps_released env ops _ rfl) hev,
    fun _ _ _ => forwarded_event_dropped env _ ev (run_keeps_released env ops _ rfl) hev⟩

/-- Witness for C4: `OnError` after `Terminated()`, a new link and a `Send` on the sample
bridge. -/
theorem events_after_teardown_dropped_witness :
    step quietEnv (run quietEnv (Terminated sampleBridge).state
        [.OnLinkCreated (some ⟨9⟩), .Send "x"]).1 (.OnError 104 "reset") =
      ((run quietEnv (Terminated sampleBridge).state
        [.OnLinkCreated (some ⟨9⟩), .Send "x"]).1, []) :=
  (events_after_teardown_dropped quietEnv sampleBridge
    [.OnLinkCreated (some ⟨9⟩), .Send "x"] (.OnError 104 "reset") rfl).1

/-- C5: on a bridge with a stored link, a certificate that is parsed and fails (for the
client: one that is supplied, that is, not empty) makes `StartTLSClient` return a string
beginning with "Cannot parse client certificate: -0x" and `StartTLSServer` one beginning with
"Cannot parse server certificate: -0x"; when the certificate parses (or, for the client, is
empty) and the key is parsed and fails (for the client: a key that is supplied), the result
begins with "Cannot parse client private key: -0x", for the server with "Cannot parse server
private key: -0x".  In each case no call is made at all and the bridge is unchanged. -/
theorem parse_failure_fails_fast (env : Collaborators) (self : cLuaTCPLink) (link : cTCPLink)
    (cert key pw pending : AString) (hl : self.m_Link = some link) :
    (cert ≠ "" → env.Parse cert ≠ 0 →
      ∃ rest, (StartTLSClient env self cert key pw).ret
          = "Cannot parse client certificate: -0x" ++ rest ∧
        (StartTLSClient env self cert key pw).state = self ∧
        (StartTLSClient env self cert key pw).calls = []) ∧
    (env.Parse cert ≠ 0 →
      ∃ rest, (StartTLSServer env self cert key pw pending).ret
          = "Cannot parse server certificate: -0x" ++ rest ∧
        (StartTLSServer env self cert key pw pending).state = self ∧
        (StartTLSServer env self cert key pw pending).calls = []) ∧
    ((cert = "" ∨ env.Parse cert = 0) → key ≠ "" → env.ParsePrivate key pw ≠ 0 →
      ∃ rest, (StartTLSClient env self cert key pw).ret
          = "Cannot parse client private key: -0x" ++ rest ∧
        (StartTLSClient env self cert key pw).state = self ∧
        (StartTLSClient env self cert key pw).calls = []) ∧
    (env.Parse cert = 0 → env.ParsePrivate key pw ≠ 0 →
      ∃ rest, (StartTLSServer env self cert key pw pending).ret
          = "Cannot parse server private key: -0x" ++ rest ∧
        (StartTLSServer env self cert key pw pending).state = self ∧
        (StartTLSServer env self cert key pw pending).calls = []) := by
  refine ⟨?_, ?_, ?_, ?_⟩
  · intro hc hp
    refine ⟨fmtHex (env.Parse cert), ?_, ?_, ?_⟩ <;>
      simp only [StartTLSClient, hl, if_pos (And.intro hc hp)]
  · intro hp
    refine ⟨fmtHex (env.Parse cert), ?_, ?_, ?_⟩ <;>
      simp only [StartTLSServer, hl, if_pos hp]
  · intro hc hk hp
    have hno : ¬ (cert ≠ "" ∧ env.Parse cert ≠ 0) := by
      rintro ⟨h1, h2⟩
      rcases hc with h | h
      · exact h1 h
      · exact h2 h
    refine ⟨fmtHex (env.ParsePrivate key pw), ?_, ?_, ?_⟩ <;>
      simp only [StartTLSClient, hl, if_neg hno, if_pos (And.intro hk hp)]
  · intro hc hp
    have hno : ¬ env.Parse cert ≠ 0 := fun h => h hc
    refine ⟨fmtHex (env.ParsePrivate key pw), ?_, ?_, ?_⟩ <;>
      simp only [StartTLSServer, hl, if_neg hno, if_pos hp]

/-- Witness for C5: a certificate that fails with -0x2180 (client and server), and a key
that fails with -0x3d00 after an empty client certificate. -/
theorem parse_failure_fails_fast_witness :
    (∃ rest, (StartTLSClient (parseEnv (-0x2180) 0) sampleBridge "junk" "" "").ret
        = "Cannot parse client certificate: -0x" ++ rest ∧
      (StartTLSClient (parseEnv (-0x2180) 0) sampleBridge "junk" "" "").state = sampleBridge ∧
      (StartTLSClient (parseEnv (-0x2180) 0) sampleBridge "junk" "" "").calls = []) ∧
    (∃ rest, (StartTLSServer (parseEnv (-0x2180) 0) sampleBridge "junk" "" "" "HELO").ret
        = "Cannot parse server certificate: -0x" ++ rest ∧
      (StartTLSServer (parseEnv (-0x2180) 0) sampleBridge "junk" "" "" "HELO").state
        = sampleBridge ∧
      (StartTLSServer (parseEnv (-0x2180) 0) sampleBridge "junk" "" "" "HELO").calls = []) ∧
    (∃ rest, (StartTLSClient (parseEnv (-0x2180) (-0x3d00)) sampleBridge "" "junk" "pw").ret
        = "Cannot parse client private key: -0x" ++ rest ∧
      (StartTLSClient (parseEnv (-0x2180) (-0x3d00)) sampleBridge "" "junk" "pw").state
        = sampleBridge ∧
      (StartTLSClient (parseEnv (-0x2180) (-0x3d00)) sampleBridge "" "junk" "pw").calls = []) ∧
    (∃ rest, (StartTLSServer (parseEnv 0 (-0x3d00)) sampleBridge "cert" "junk" "pw" "HELO").ret
        = "Cannot parse server private key: -0x" ++ rest ∧
      (StartTLSServer (parseEnv 0 (-0x3d00)) sampleBridge "cert" "junk" "pw" "HELO").state
        = sampleBridge ∧
      (StartTLSServer (parseEnv 0 (-0x3d00)) sampleBridge "cert" "junk" "pw" "HELO").calls = []) :=
  ⟨(parse_failure_fails_fast (parseEnv (-0x2180) 0) sampleBridge ⟨7⟩ "junk" "" "" "HELO" rfl).1
      (by decide) (by decide),
    (parse_failure_fails_fast (parseEnv (-0x2180) 0) sampleBridge ⟨7⟩ "junk" "" "" "HELO" rfl).2.1
      (by decide),
    (parse_failure_fails_fast (parseEnv (-0x2180) (-0x3d00)) sampleBridge ⟨7⟩ "" "junk" "pw" ""
      rfl).2.2.1 (Or.inl rfl) (by decide) (by decide),
    (parse_failure_fails_fast (parseEnv 0 (-0x3d00)) sampleBridge ⟨7⟩ "cert" "junk" "pw" "HELO"
      rfl).2.2.2 rfl (by decide)⟩

/-- C6: the code at the failing input.  With the parser answering -0x2180 the text after the
colon is "-0xffffde80", the digits of the code read as an unsigned 32-bit value, and not
"-0x2180", the digits of its magnitude; the same for the three other messages. -/
theorem parse_error_text_not_magnitude :
    (StartTLSClient (parseEnv (-0x2180) 0) sampleBridge "junk" "" "").ret
      = "Cannot parse client certificate: -0xffffde80" ∧
    "Cannot parse client certificate: -0x" ++ magnitudeHex (-0x2180)
      = "Cannot parse client certificate: -0x2180" ∧
    (StartTLSClient (parseEnv (-0x2180) 0) sampleBridge "junk" "" "").ret
      ≠ "Cannot parse client certificate: -0x" ++ magnitudeHex (-0x2180) ∧
    (StartTLSClient (parseEnv 0 (-0x2180)) sampleBridge "" "junk" "").ret
      = "Cannot parse client private key: -0xffffde80" ∧
    (StartTLSServer (parseEnv (-0x2180) 0) sampleBridge "junk" "" "" "").ret
      = "Cannot parse server certificate: -0xffffde80" ∧
    (StartTLSServer (parseEnv 0 (-0x2180)) sampleBridge "junk" "junk" "" "").ret
      = "Cannot parse server private key: -0xffffde80" := by
  decide

/-- C7, as stated, fails: a bridge with no stored link (just constructed, or already torn
down) returns the empty string from `StartTLSClient` and `StartTLSServer` without any call
on a link. -/
theorem StartTLS_without_link_returns_empty :
    (create 1 "Plug" true).state.m_Link = none ∧
    (StartTLSClient quietEnv (create 1 "Plug" true).state "" "" "").ret = "" ∧
    (StartTLSClient quietEnv (create 1 "Plug" true).state "" "" "").calls = [] ∧
    (StartTLSServer quietEnv (create 1 "Plug" true).state "cert" "key" "" "").ret = "" ∧
    (StartTLSServer quietEnv (create 1 "Plug" true).state "cert" "key" "" "").calls = [] ∧
    (StartTLSClient quietEnv (Close sampleBridge).state "" "" "").ret = "" ∧
    (StartTLSClient quietEnv (Close sampleBridge).state "" "" "").calls = [] := by
  decide

/-- C7, amended: on a bridge that holds a stored link, `StartTLSClient` and `StartTLSServer`
return the empty string exactly when the link's own StartTLS operation was called and itself
returned the empty string; in every other case the returned string is not empty. -/
theorem StartTLS_empty_iff_link_upgraded (env : Collaborators) (self : cLuaTCPLink)
    (link : cTCPLink) (cert key pw pending : AString) (hl : self.m_Link = some link) :
    ((StartTLSClient env self cert key pw).ret = "" ↔
      ∃ c k, (StartTLSClient env self cert key pw).calls = [Call.LinkStartTLSClient link c k] ∧
        env.linkStartTLSClient link c k = "") ∧
    ((StartTLSServer env self cert key pw pending).ret = "" ↔
      ∃ c k, (StartTLSServer env self cert key pw pending).calls
          = [Call.LinkStartTLSServer link c k pending] ∧
        env.linkStartTLSServer link c k pending = "") := by
  constructor
  · by_cases h1 : cert ≠ "" ∧ env.Parse cert ≠ 0
    · simp only [StartTLSClient, hl, if_pos h1]
      constructor
      · intro h
        exact absurd h (append_ne_empty _ _ (by decide))
      · rintro ⟨c, k, hcalls, _⟩
        cases hcalls
    · by_cases h2 : key ≠ "" ∧ env.ParsePrivate key pw ≠ 0
      · simp only [StartTLSClient, hl, if_neg h1, if_pos h2]
        constructor
        · intro h
          exact absurd h (append_ne_empty _ _ (by decide))
        · rintro ⟨c, k, hcalls, _⟩
          cases hcalls
      · simp only [StartTLSClient, hl, if_neg h1, if_neg h2]
        constructor
        · intro h
          exact ⟨_, _, rfl, h⟩
        · rintro ⟨c, k, hcalls, hret⟩
          simp only [List.cons.injEq, Call.LinkStartTLSClient.injEq, and_true, true_and] at hcalls
          rw [hcalls.1, hcalls.2]
          exact hret
  · by_cases h1 : env.Parse cert ≠ 0
    · simp only [StartTLSServer, hl, if_pos h1]
      constructor
      · intro h
        exact absurd h (append_ne_empty _ _ (by decide))
      · rintro ⟨c, k, hcalls, _⟩
        cases hcalls
    · by_cases h2 : env.ParsePrivate key pw ≠ 0
      · simp only [StartTLSServer, hl, if_neg h1, if_pos h2]
        constructor
        · intro h
          exact absurd h (append_ne_empty _ _ (by decide))
        · rintro ⟨c, k, hcalls, _⟩
          cases hcalls
      · simp only [StartTLSServer, hl, if_neg h1, if_neg h2]
        constructor
        · intro h
          exact ⟨_, _, rfl, h⟩
        · rintro ⟨c, k, hcalls, hret⟩
          simp only [List.cons.injEq, Call.LinkStartTLSServer.injEq, and_true, true_and] at hcalls
          rw [hcalls.1, hcalls.2]
          exact hret

/-- Witness for C7 (amended) on the sample bridge. -/
theorem StartTLS_empty_iff_link_upgraded_witness :
    ((StartTLSClient quietEnv sampleBridge "cert" "key" "pw").ret = "" ↔
      ∃ c k, (StartTLSClient quietEnv sampleBridge "cert" "key" "pw").calls
          = [Call.LinkStartTLSClient ⟨7⟩ c k] ∧
        quietEnv.linkStartTLSClient ⟨7⟩ c k = "") :=
  (StartTLS_empty_iff_link_upgraded quietEnv sampleBridge ⟨7⟩ "cert" "key" "pw" "" rfl).1

/-- C8: on a bridge with a stored link, when the certificate and the key both parse
(code 0), `StartTLSServer(cert, key, password, pending)` makes exactly one call, the link's
`StartTLSServer` with the parsed certificate, the parsed key and `pending` unchanged, returns
exactly what the link returned, and leaves the bridge unchanged. -/
theorem StartTLSServer_forwards_pending (env : Collaborators) (self : cLuaTCPLink)
    (link : cTCPLink) (cert key pw pending : AString) (hl : self.m_Link = some link)
    (hc : env.Parse cert = 0) (hk : env.ParsePrivate key pw = 0) :
    (StartTLSServer env self cert key pw pending).calls
      = [Call.LinkStartTLSServer link ⟨cert⟩ ⟨key, pw⟩ pending] ∧
    (StartTLSServer env self cert key pw pending).ret
      = env.linkStartTLSServer link ⟨cert⟩ ⟨key, pw⟩ pending ∧
    (StartTLSServer env self cert key pw pending).state = self := by
  have h1 : ¬ env.Parse cert ≠ 0 := fun h => h hc
  have h2 : ¬ env.ParsePrivate key pw ≠ 0 := fun h => h hk
  refine ⟨?_, ?_, ?_⟩ <;> simp only [StartTLSServer, hl, if_neg h1, if_neg h2]

/-- Witness for C8 with the pending plaintext "HELO\n". -/
theorem StartTLSServer_forwards_pending_witness :
    (StartTLSServer quietEnv sampleBridge "cert" "key" "pw" "HELO\n").calls
      = [Call.LinkStartTLSServer ⟨7⟩ ⟨"cert"⟩ ⟨"key", "pw"⟩ "HELO\n"] ∧
    (StartTLSServer quietEnv sampleBridge "cert" "key" "pw" "HELO\n").ret
      = quietEnv.linkStartTLSServer ⟨7⟩ ⟨"cert"⟩ ⟨"key", "pw"⟩ "HELO\n" ∧
    (StartTLSServer quietEnv sampleBridge "cert" "key" "pw" "HELO\n").state = sampleBridge :=
  StartTLSServer_forwards_pending quietEnv sampleBridge ⟨7⟩ "cert" "key" "pw" "HELO\n"
    rfl rfl rfl

/-- C9: on a bridge with no stored link (as both constructors leave it until
`OnLinkCreated` is delivered), every `Send` of any sequence returns false, no call is made
at all and the bridge is unchanged; on a bridge with a stored link, `Send(data)` makes the one
call `Send(data)` on that link and returns exactly its result. -/
theorem Send_before_and_after_link (env : Collaborators) (self : cLuaTCPLink)
    (datas : List AString) (hl : self.m_Link = none) :
    sendAll env self datas = (List.replicate datas.length false, self, []) ∧
    (∀ (link : cTCPLink) (d : AString),
      (Send env (OnLinkCreated self (some link)).state d).ret = env.linkSend link d ∧
      (Send env (OnLinkCreated self (some link)).state d).calls = [Call.LinkSend link d]) ∧
    (∀ (other : cLuaTCPLink) (link : cTCPLink) (d : AString), other.m_Link = some link →
      (Send env other d).ret = env.linkSend link d ∧
      (Send env other d).calls = [Call.LinkSend link d] ∧
      (Send env other d).state = other) := by
  refine ⟨?_, ?_, ?_⟩
  · induction datas with
    | nil => rfl
    | cons d ds ih =>
      have hS : Send env self d = ⟨false, self, []⟩ := by
        simp only [Send, hl]
      simp only [sendAll, hS, ih, List.length_cons, List.replicate_succ, List.nil_append]
  · intro link d
    exact ⟨rfl, rfl⟩
  · intro other link d ho
    refine ⟨?_, ?_, ?_⟩ <;> simp only [Send, ho]

/-- Witness for C9: three sends on a bridge just constructed. -/
theorem Send_before_and_after_link_witness :
    sendAll quietEnv (create 1 "Plug" true).state ["a", "", "bc"]
      = (List.replicate 3 false, (create 1 "Plug" true).state, []) :=
  (Send_before_and_after_link quietEnv (create 1 "Plug" true).state ["a", "", "bc"] rfl).1

/-- C10, as stated, fails: on the sample bridge after `Terminated()` (callbacks released,
no stored link), `OnLinkCreated` with link 9 stores that link, so the bridge holds a
stored link again. -/
theorem OnLinkCreated_after_Terminated_stores_link :
    (Terminated sampleBridge).state.m_Callbacks = false ∧
    (Terminated sampleBridge).state.m_Link = none ∧
    (step quietEnv (Terminated sampleBridge).state (.OnLinkCreated (some ⟨9⟩))).1.m_Link
      = some ⟨9⟩ := by
  decide

/-- C10, amended: on a bridge whose callbacks are released and that has no stored link,
every operation leaves the callbacks released, and every operation other than
`OnLinkCreated` leaves the bridge without a stored link; `OnLinkCreated` stores the link it
is given. -/
theorem Terminated_absorbing_but_OnLinkCreated (env : Collaborators) (self : cLuaTCPLink)
    (op : Op) (hcb : self.m_Callbacks = false) (hl : self.m_Link = none) :
    (step env self op).1.m_Callbacks = false ∧
    ((∀ l, op ≠ Op.OnLinkCreated l) → (step env self op).1.m_Link = none) ∧
    (∀ l, op = Op.OnLinkCreated l → (step env self op).1.m_Link = l) := by
  refine ⟨step_keeps_released env self op hcb, ?_, ?_⟩
  · intro hne
    rcases step_state env self op with h | h | ⟨l, hop, _⟩
    · rw [h]; exact hl
    · rw [h]
    · exact absurd hop (hne l)
  · intro l hop
    subst hop
    rfl

/-- Witness for C10 (amended): `Close` on the sample bridge after `Terminated()`. -/
theorem Terminated_absorbing_but_OnLinkCreated_witness :
    (step quietEnv (Terminated sampleBridge).state Op.Close).1.m_Callbacks = false ∧
    (step quietEnv (Terminated sampleBridge).state Op.Close).1.m_Link = none :=
  ⟨(Terminated_absorbing_but_OnLinkCreated quietEnv (Terminated sampleBridge).state Op.Close
      rfl rfl).1,
    (Terminated_absorbing_but_OnLinkCreated quietEnv (Terminated sampleBridge).state Op.Close
      rfl rfl).2.1 (by intro l h; cases h)⟩

end LuaTCPLink
